import Mathlib

/-
Verification of the Context-API / higher-order-component repository.

The repository consists of a React context provider (`ContextProvider.js`),
a higher-order component (`Context_HOC.js`) that injects the broadcast
context value into a wrapped component's props, an example consumer
(`SomeComponent.js`), and the tutorial text whose code listings contain a
second version of the provider (counter/message state with an
`incrementCounter` update).

JavaScript objects are embedded as association lists of string keys and
`JSValue`s.  Since `Object.assign({}, base, upd)` and the object spread
`{...base, ...upd}` let later keys override earlier ones, merges are
represented by PREPENDING the overriding bindings and reading with a
first-match lookup (`getProp`), which is extensionally the same function.
Property access on `undefined` throws a `TypeError` in JavaScript; reads
that can throw are embedded in `Except String`.
-/

namespace ContextHOC

/-- A JavaScript value as used by this repository: `undefined`, strings,
numbers, function values (identified by name), and objects given as
key/value lists. -/
inductive JSValue where
  | undefined : JSValue
  | str : String → JSValue
  | num : Int → JSValue
  | func : String → JSValue
  | obj : List (String × JSValue) → JSValue

/-- Property lookup on an object's field list.  The list is ordered with
the most recent (overriding) binding first, so the first match wins;
a missing key reads as `undefined`, as in JavaScript. -/
def getProp : List (String × JSValue) → String → JSValue
  | [], _ => .undefined
  | (k, v) :: rest, key => if k = key then v else getProp rest key

/-- Property access `v.key`.  On an object it is an ordinary lookup (a
missing key gives `undefined`); on `undefined` it throws a `TypeError`;
on other primitives it yields `undefined` without throwing. -/
def jsGet (v : JSValue) (key : String) : Except String JSValue :=
  match v with
  | .undefined => .error ("TypeError: Cannot read property " ++ key ++ " of undefined")
  | .obj fields => .ok (getProp fields key)
  | _ => .ok .undefined

/-! ### ContextProvider.js (the committed provider)

`AppContext = React.createContext()` — no default argument, so the
default context value is `undefined`.  The provider's state is
`{contextKey1: 'contextValue1', contextKey2: 'contextValue2',
methods: {updateKey1}}` and it broadcasts `value={this.state}`.
`updateKey1` calls `this.setState({contextKey1: 'newValue'})`; React's
`setState` merges the partial update over the previous state and installs
the merged result as a fresh state object. -/

/-- Default value of `React.createContext()` called with no argument. -/
def appContextDefault : JSValue := .undefined

/-- React's `setState` merge: the partial `updates` override the previous
state's fields, every other field is carried over. -/
def setState (prev updates : List (String × JSValue)) : List (String × JSValue) :=
  updates ++ prev

/-- The partial state update passed by `updateKey1`:
`{ contextKey1: 'newValue' }`. -/
def updateKey1Updates : List (String × JSValue) := [("contextKey1", .str "newValue")]

/-- The `updateKey1` update operation of `ContextProvider.js`:
`this.setState({ contextKey1: 'newValue' })`. -/
def updateKey1 (prev : List (String × JSValue)) : List (String × JSValue) :=
  setState prev updateKey1Updates

/-- The initial state object of `ContextProvider.js`. -/
def contextProviderState : List (String × JSValue) :=
  [("contextKey1", .str "contextValue1"),
   ("contextKey2", .str "contextValue2"),
   ("methods", .obj [("updateKey1", .func "updateKey1")])]

/-- The value `ContextProvider.js` broadcasts: `value={this.state}`. -/
def contextProviderBroadcast (state : List (String × JSValue)) : JSValue :=
  .obj state

/-! ### Context_HOC.js

`withContext(Component)` returns `contextComponent(props)`, which renders
`<Component {...props} context={context} />` inside
`<AppContext.Consumer>`: the original props are spread first and the
`context` attribute is written after them, so it overrides any `context`
key already in `props`. -/

/-- The props object the wrapped `Component` receives:
`{...props, context: context}`.  The later-written `context` binding
is prepended so that first-match lookup makes it override. -/
def mkConsumerProps (props : List (String × JSValue)) (context : JSValue) :
    List (String × JSValue) :=
  ("context", context) :: props

/-- `withContext` as a function on renderers: the adapted component renders
the wrapped component at the consumer props built from the broadcast
context value. -/
def withContextRender (render : List (String × JSValue) → Except String (List JSValue))
    (props : List (String × JSValue)) (broadcast : JSValue) :
    Except String (List JSValue) :=
  render (mkConsumerProps props broadcast)

/-! ### SomeComponent.js (the committed consumer)

Reads `props.context.counter`, `props.context.message` and
`props.context.incrementCounter` and renders them.  Rendered output is
modelled as the flat list of values appearing in the returned markup. -/

/-- The top-level keys `SomeComponent.js` dereferences on the injected
`props.context` object. -/
def someComponentContextKeys : List String :=
  ["counter", "message", "incrementCounter"]

/-- The render function of `SomeComponent.js`.  It dereferences
`props.context.counter`, `props.context.message` and
`props.context.incrementCounter` (each a throwing access when
`props.context` is `undefined`) and emits the text and interpolated
values of its markup. -/
def renderSomeComponent (props : List (String × JSValue)) :
    Except String (List JSValue) := do
  let context := getProp props "context"
  let counter ← jsGet context "counter"
  let message ← jsGet context "message"
  let increment ← jsGet context "incrementCounter"
  .ok [.str "SomeComponent", .str "Counter: ", counter,
       .str "Message: ", message, increment, .str "Count!"]

/-! ### The tutorial's provider (README listing, `src/unnamed/part_001`)

State `{counter: 0, message: 'Hello, world!'}`, update operation
`incrementCounter = () => this.setState(prevState =>
({counter: prevState.counter + 1}))`, broadcasting
`value={{...this.state, incrementCounter: this.incrementCounter}}`. -/

/-- The state of the tutorial's `ContextProvider`: a counter and a
message. -/
structure CounterState where
  counter : Int
  message : String
deriving Repr, DecidableEq

/-- The initial state set in the tutorial provider's constructor. -/
def counterInitialState : CounterState := ⟨0, "Hello, world!"⟩

/-- The `incrementCounter` update operation:
`this.setState(prevState => ({counter: prevState.counter + 1}))` — the
partial update is merged, so `message` is carried over. -/
def incrementCounter (s : CounterState) : CounterState :=
  { s with counter := s.counter + 1 }

/-- Reading the snapshot: yields the current field values and leaves the
state untouched. -/
def readSnapshot (s : CounterState) : (Int × String) × CounterState :=
  ((s.counter, s.message), s)

/-- The value the tutorial provider broadcasts:
`{...this.state, incrementCounter: this.incrementCounter}`. -/
def counterBroadcast (s : CounterState) : JSValue :=
  .obj [("incrementCounter", .func "incrementCounter"),
        ("counter", .num s.counter), ("message", .str s.message)]

/-! ### A heap of snapshot objects

React's `setState` never mutates the previous state object: it builds a
fresh merged object and installs it.  To express this, snapshot objects
live in an append-only heap (addresses are list indices); the provider
points at the current snapshot's address.  An update operation computes
its partial update from the previous snapshot, allocates the merged
object at a fresh address and moves the provider's pointer there. -/

/-- The provider's snapshot objects and the address of the current one. -/
structure ProviderHeap where
  objects : List (List (String × JSValue))
  current : Nat

/-- `setState` on the heap: read the previous snapshot, allocate the
merged snapshot at a fresh address, and point the provider at it.
`updates` is the updater function passed to `setState` (for an object
argument, the function ignoring its input). -/
def setStateHeap (h : ProviderHeap)
    (updates : List (String × JSValue) → List (String × JSValue)) : ProviderHeap :=
  match h.objects[h.current]? with
  | some prev => ⟨h.objects ++ [setState prev (updates prev)], h.objects.length⟩
  | none => h

/-- `updateKey1` as a heap step: `this.setState({contextKey1: 'newValue'})`. -/
def updateKey1Heap (h : ProviderHeap) : ProviderHeap :=
  setStateHeap h (fun _ => updateKey1Updates)

/-- JavaScript `x + 1` on a snapshot field holding a number. -/
def jsIncrement : JSValue → JSValue
  | .num n => .num (n + 1)
  | _ => .undefined

/-- `incrementCounter` as a heap step:
`this.setState(prevState => ({counter: prevState.counter + 1}))`. -/
def incrementCounterHeap (h : ProviderHeap) : ProviderHeap :=
  setStateHeap h (fun prev => [("counter", jsIncrement (getProp prev "counter"))])

/-- The snapshot `{counter: 5, message: "X"}` used by the rendering
property. -/
def snapshotFiveX : JSValue :=
  .obj [("counter", .num 5), ("message", .str "X")]

/-! ### Helper lemmas -/

theorem getProp_cons (k : String) (v : JSValue) (rest : List (String × JSValue))
    (key : String) :
    getProp ((k, v) :: rest) key = if k = key then v else getProp rest key := rfl

/-! ### Claim theorems -/

/-- C2: for every snapshot state, one invocation of `updateKey1` yields a
new snapshot whose `contextKey1` field is `'newValue'` while every other
field reads unchanged. -/
theorem updateKey1_frame (s : List (String × JSValue)) :
    getProp (updateKey1 s) "contextKey1" = JSValue.str "newValue" ∧
    ∀ k, k ≠ "contextKey1" → getProp (updateKey1 s) k = getProp s k := by
  constructor
  · rfl
  · intro k hk
    simp [updateKey1, setState, updateKey1Updates, getProp_cons, Ne.symm hk]

/-- Witness for C2 at the provider's initial state: `contextKey1` becomes
`'newValue'` while `contextKey2` and `methods` read unchanged. -/
theorem updateKey1_frame_witness :
    getProp (updateKey1 contextProviderState) "contextKey1" =
      JSValue.str "newValue" ∧
    getProp (updateKey1 contextProviderState) "contextKey2" =
      getProp contextProviderState "contextKey2" ∧
    getProp (updateKey1 contextProviderState) "methods" =
      getProp contextProviderState "methods" :=
  ⟨(updateKey1_frame contextProviderState).1,
   (updateKey1_frame contextProviderState).2 "contextKey2" (by decide),
   (updateKey1_frame contextProviderState).2 "methods" (by decide)⟩

/-- C3: invoking `incrementCounter` on the snapshot
`{counter: 0, message: "Hello, world!"}` yields
`{counter: 1, message: "Hello, world!"}`. -/
theorem incrementCounter_initial_snapshot :
    incrementCounter counterInitialState = ⟨1, "Hello, world!"⟩ := rfl

/-- C7: `incrementCounter` is not idempotent — applying it twice from
counter `n` gives counter `n + 2` (from `0`, counter `2`, not `1`) and the
twice-updated snapshot differs from the once-updated one — while reading
the snapshot is idempotent: a second read returns the same values and the
same state. -/
theorem incrementCounter_not_idempotent (n : Int) (msg : String) :
    incrementCounter (incrementCounter ⟨n, msg⟩) ≠ incrementCounter ⟨n, msg⟩ ∧
    (incrementCounter (incrementCounter ⟨n, msg⟩)).counter = n + 2 ∧
    incrementCounter (incrementCounter counterInitialState) =
      ⟨2, "Hello, world!"⟩ ∧
    (incrementCounter (incrementCounter counterInitialState)).counter ≠ 1 ∧
    readSnapshot ((readSnapshot ⟨n, msg⟩).2) = readSnapshot ⟨n, msg⟩ := by
  refine ⟨?_, ?_, rfl, by decide, rfl⟩
  · intro h
    have hc := congrArg CounterState.counter h
    simp [incrementCounter] at hc
  · simp [incrementCounter]
    omega

/-- C10: `updateKey1` is idempotent — invoking it twice produces a
snapshot with the same value at every field as invoking it once, since it
sets `contextKey1` to the constant `'newValue'`. -/
theorem updateKey1_idempotent (s : List (String × JSValue)) (k : String) :
    getProp (updateKey1 (updateKey1 s)) k = getProp (updateKey1 s) k := by
  by_cases hk : "contextKey1" = k
  · simp [updateKey1, setState, updateKey1Updates, getProp_cons, hk]
  · simp [updateKey1, setState, updateKey1Updates, getProp_cons, hk]

/-- C1: the reachability invariant fails on the committed pairing — the
keys `counter`, `message` and `incrementCounter` that `SomeComponent.js`
dereferences at the top level of `props.context` are all absent from the
snapshot `ContextProvider.js` broadcasts, and rendering the wrapped
component under that broadcast puts `undefined` in every interpolated
slot. -/
theorem someComponent_keys_absent_from_broadcast :
    "counter" ∈ someComponentContextKeys ∧
    getProp contextProviderState "counter" = JSValue.undefined ∧
    getProp contextProviderState "message" = JSValue.undefined ∧
    getProp contextProviderState "incrementCounter" = JSValue.undefined ∧
    ¬ (∀ k ∈ someComponentContextKeys, getProp contextProviderState k ≠ JSValue.undefined) ∧
    withContextRender renderSomeComponent []
        (contextProviderBroadcast contextProviderState) =
      .ok [.str "SomeComponent", .str "Counter: ", .undefined,
           .str "Message: ", .undefined, .undefined, .str "Count!"] := by
  refine ⟨by simp [someComponentContextKeys], rfl, rfl, rfl, ?_, rfl⟩
  intro hall
  exact hall "counter" (by simp [someComponentContextKeys]) rfl

/-- C4 counterexample: for the props object `{context: 42}` and broadcast
snapshot `7`, the wrapped component does not receive the original
`context` prop unchanged — the injected snapshot overrides it, so no key
is added and the original value is lost. -/
theorem withContext_existing_context_prop_clobbered :
    getProp [("context", JSValue.num 42)] "context" = JSValue.num 42 ∧
    getProp (mkConsumerProps [("context", JSValue.num 42)] (JSValue.num 7))
        "context" = JSValue.num 7 ∧
    getProp (mkConsumerProps [("context", JSValue.num 42)] (JSValue.num 7))
        "context" ≠ getProp [("context", JSValue.num 42)] "context" := by
  refine ⟨rfl, rfl, ?_⟩
  intro h
  simp [mkConsumerProps, getProp] at h

/-- C4 (amended): for every original props object that has no key named
`context`, the adapted component passes every original prop through to
the wrapped component unchanged and adds the broadcast snapshot under
exactly one additional field named `context`. -/
theorem withContext_frame (props : List (String × JSValue)) (s : JSValue)
    (h : "context" ∉ props.map Prod.fst) :
    getProp (mkConsumerProps props s) "context" = s ∧
    (∀ k, k ∈ props.map Prod.fst →
      getProp (mkConsumerProps props s) k = getProp props k) ∧
    (mkConsumerProps props s).map Prod.fst = "context" :: props.map Prod.fst := by
  refine ⟨rfl, ?_, rfl⟩
  intro k hk
  have hne : "context" ≠ k := fun he => h (he ▸ hk)
  simp [mkConsumerProps, getProp_cons, hne]

/-- Witness for the amended C4 at props `{name: "x"}` and snapshot `7`. -/
theorem withContext_frame_witness :
    "context" ∉ ([("name", JSValue.str "x")].map Prod.fst) ∧
    getProp (mkConsumerProps [("name", JSValue.str "x")] (JSValue.num 7))
        "context" = JSValue.num 7 ∧
    getProp (mkConsumerProps [("name", JSValue.str "x")] (JSValue.num 7))
        "name" = getProp [("name", JSValue.str "x")] "name" ∧
    (mkConsumerProps [("name", JSValue.str "x")] (JSValue.num 7)).map Prod.fst =
      ["context", "name"] :=
  ⟨by decide,
   (withContext_frame [("name", JSValue.str "x")] (JSValue.num 7) (by decide)).1,
   (withContext_frame [("name", JSValue.str "x")] (JSValue.num 7) (by decide)).2.1
     "name" (by decide),
   (withContext_frame [("name", JSValue.str "x")] (JSValue.num 7) (by decide)).2.2⟩

/-- C5: a display component whose props carry no snapshot — used without
the `withContext` wrapper so that `props.context` is `undefined`, or
wrapped but rendered outside any provider so that the consumer receives
`createContext()`'s default `undefined` — throws a missing-reference
`TypeError` on its first dereference, on every such render. -/
theorem someComponent_missing_context_fault (props : List (String × JSValue))
    (h : getProp props "context" = JSValue.undefined) :
    renderSomeComponent props =
      .error "TypeError: Cannot read property counter of undefined" ∧
    withContextRender renderSomeComponent props appContextDefault =
      .error "TypeError: Cannot read property counter of undefined" := by
  constructor
  · unfold renderSomeComponent
    rw [h]
    rfl
  · rfl

/-- Witness for C5 at the empty props object. -/
theorem someComponent_missing_context_fault_witness :
    getProp [] "context" = JSValue.undefined ∧
    renderSomeComponent [] =
      .error "TypeError: Cannot read property counter of undefined" ∧
    withContextRender renderSomeComponent [] appContextDefault =
      .error "TypeError: Cannot read property counter of undefined" :=
  ⟨rfl, (someComponent_missing_context_fault [] rfl).1,
   (someComponent_missing_context_fault [] rfl).2⟩

/-- C6: rendering the `withContext`-wrapped display component with the
snapshot `{counter: 5, message: "X"}` succeeds for every props object and
its output contains the literal values `5` and `"X"`. -/
theorem wrapped_render_surfaces_snapshot_values (props : List (String × JSValue)) :
    withContextRender renderSomeComponent props snapshotFiveX =
      .ok [.str "SomeComponent", .str "Counter: ", .num 5,
           .str "Message: ", .str "X", .undefined, .str "Count!"] ∧
    JSValue.num 5 ∈ [JSValue.str "SomeComponent", JSValue.str "Counter: ",
      JSValue.num 5, JSValue.str "Message: ", JSValue.str "X", JSValue.undefined,
      JSValue.str "Count!"] ∧
    JSValue.str "X" ∈ [JSValue.str "SomeComponent", JSValue.str "Counter: ",
      JSValue.num 5, JSValue.str "Message: ", JSValue.str "X", JSValue.undefined,
      JSValue.str "Count!"] := by
  refine ⟨rfl, ?_, ?_⟩
  · exact List.Mem.tail _ (List.Mem.tail _ (List.Mem.head _))
  · exact List.Mem.tail _ (List.Mem.tail _ (List.Mem.tail _ (List.Mem.tail _
      (List.Mem.head _))))

/-- C8: every update operation replaces the snapshot wholesale — given
any heap whose current address holds the snapshot `prev` and any updater,
a `setState` step leaves every already-allocated snapshot object (in
particular `prev` at the old current address) byte-for-byte unchanged,
moves the provider to a fresh address distinct from the old one, and
stores the merged snapshot there. -/
theorem setStateHeap_replaces_wholesale (h : ProviderHeap)
    (updates : List (String × JSValue) → List (String × JSValue))
    (prev : List (String × JSValue))
    (hprev : h.objects[h.current]? = some prev) :
    (∀ a, a < h.objects.length →
      (setStateHeap h updates).objects[a]? = h.objects[a]?) ∧
    (setStateHeap h updates).objects[h.current]? = some prev ∧
    (setStateHeap h updates).current = h.objects.length ∧
    (setStateHeap h updates).current ≠ h.current ∧
    (setStateHeap h updates).objects[(setStateHeap h updates).current]? =
      some (setState prev (updates prev)) := by
  have hlt : h.current < h.objects.length := (List.getElem?_eq_some.mp hprev).1
  have hobj : (setStateHeap h updates).objects =
      h.objects ++ [setState prev (updates prev)] := by
    simp [setStateHeap, hprev]
  have hcur : (setStateHeap h updates).current = h.objects.length := by
    simp [setStateHeap, hprev]
  refine ⟨?_, ?_, hcur, ?_, ?_⟩
  · intro a ha
    rw [hobj]
    exact List.getElem?_append_left ha
  · rw [hobj, List.getElem?_append_left hlt]
    exact hprev
  · rw [hcur]
    omega
  · rw [hobj, hcur]
    exact List.getElem?_concat_length _ _

/-- Witness for C8: one `updateKey1` step from a heap holding only the
provider's initial state. -/
theorem setStateHeap_replaces_wholesale_witness :
    ((⟨[contextProviderState], 0⟩ : ProviderHeap).objects[(0 : Nat)]? =
      some contextProviderState) ∧
    (updateKey1Heap ⟨[contextProviderState], 0⟩).objects[(0 : Nat)]? =
      some contextProviderState ∧
    (updateKey1Heap ⟨[contextProviderState], 0⟩).current = 1 ∧
    (updateKey1Heap ⟨[contextProviderState], 0⟩).current ≠ 0 ∧
    (updateKey1Heap ⟨[contextProviderState], 0⟩).objects[(1 : Nat)]? =
      some (updateKey1 contextProviderState) :=
  ⟨rfl,
   (setStateHeap_replaces_wholesale ⟨[contextProviderState], 0⟩
     (fun _ => updateKey1Updates) contextProviderState rfl).2.1,
   (setStateHeap_replaces_wholesale ⟨[contextProviderState], 0⟩
     (fun _ => updateKey1Updates) contextProviderState rfl).2.2.1,
   (setStateHeap_replaces_wholesale ⟨[contextProviderState], 0⟩
     (fun _ => updateKey1Updates) contextProviderState rfl).2.2.2.1,
   (setStateHeap_replaces_wholesale ⟨[contextProviderState], 0⟩
     (fun _ => updateKey1Updates) contextProviderState rfl).2.2.2.2⟩

/-- C9: the injected `context` attribute is written after the spread of
the original props, so the wrapped component always receives the broadcast
snapshot under `context`; whenever the original props held a different
value there, that value is overridden. -/
theorem injected_context_overrides_prop (props : List (String × JSValue))
    (s : JSValue) :
    getProp (mkConsumerProps props s) "context" = s ∧
    (getProp props "context" ≠ s →
      getProp (mkConsumerProps props s) "context" ≠ getProp props "context") := by
  refine ⟨rfl, ?_⟩
  intro hne h
  apply hne
  rw [← h]
  rfl

/-- Witness for C9 at props `{context: "orig"}` and snapshot `7`. -/
theorem injected_context_overrides_prop_witness :
    getProp [("context", JSValue.str "orig")] "context" ≠ JSValue.num 7 ∧
    getProp (mkConsumerProps [("context", JSValue.str "orig")] (JSValue.num 7))
      "context" = JSValue.num 7 ∧
    getProp (mkConsumerProps [("context", JSValue.str "orig")] (JSValue.num 7))
      "context" ≠ getProp [("context", JSValue.str "orig")] "context" := by
  have hne : getProp [("context", JSValue.str "orig")] "context" ≠ JSValue.num 7 := by
    simp [getProp]
  exact ⟨hne,
    (injected_context_overrides_prop [("context", JSValue.str "orig")]
      (JSValue.num 7)).1,
    (injected_context_overrides_prop [("context", JSValue.str "orig")]
      (JSValue.num 7)).2 hne⟩

end ContextHOC
